import Mathlib

/-
Shallow embedding of skeptycal/errorlogger (Go).

Source files embedded here:
  - error_func.go   : Disable, Enable, Err, noErr, yesErr
  - exported.go     : New, NewWithOptions, Log, Err (package-level), log
  - logrus_types.go : defaultLogLevel, defaultlogger, ParseLevel (= logrus.ParseLevel)
  - errorlogger struct (enabled, wrap, errFunc, logFunc, *logrus.Logger)
  - SetLoggerFunc, SetErrorWrap, SetLogLevel (facade methods)

Go `error` values are modelled by `Option GoError` (none = nil).  The
github.com/pkg/errors `Wrap` operation is modelled structurally: it builds a
new error whose message is "msg: cause" and whose cause is the wrapped error
(the stack-trace decoration of pkg/errors is not observable through Error()
or Cause() for our purposes and is omitted).

The log sink (`logFunc`, of Go type `func(args ...interface{})`) is an
external collaborator; an `Err` call is therefore modelled as returning both
the Go return value and the trace of arguments passed to `logFunc` during the
call.  A Go nil-function call or nil-pointer dereference is a runtime panic,
modelled with `Except GoPanic`.
-/

namespace Errorlogger

/-- Error values as built by errors.New / pkg-errors Wrap: a base error
carries its message; a wrapped error carries its cause and the wrap message. -/
inductive GoError where
  | base (msg : String)
  | wrapped (cause : GoError) (msg : String)
deriving DecidableEq, Repr

/-- The Error() method of our error values: pkg/errors withMessage prints
"msg: cause.Error()". -/
def errorMessage : GoError → String
  | .base m => m
  | .wrapped c m => m ++ ": " ++ errorMessage c

/-- errors.Wrap(err, message) for a non-nil err: a new error value whose
message is message ++ ": " ++ err.Error() and whose cause is err. -/
def errorsWrap (err : GoError) (message : String) : GoError :=
  .wrapped err message

/-- errors.Cause / Unwrap one step: the wrapped error's cause. -/
def goCause : GoError → Option GoError
  | .base _ => none
  | .wrapped c _ => some c

/-- Go runtime panics that the embedded code can raise. -/
inductive GoPanic where
  | nilFunctionCall
  | nilPointerDereference
deriving DecidableEq, Repr

/-- logrus.Level (level.go re-exports these seven severities). -/
inductive Level where
  | panicLevel
  | fatalLevel
  | errorLevel
  | warnLevel
  | infoLevel
  | debugLevel
  | traceLevel
deriving DecidableEq, Repr

/-- The slice of a logrus.Logger that the embedded code reads or writes:
its current level.  (Out, Formatter and Hooks belong to the external
collaborator and are never inspected by the facade logic under proof.) -/
structure LogrusLogger where
  level : Level
deriving DecidableEq, Repr

/-- defaultLogLevel (logrus_types.go): logrus.InfoLevel. -/
def defaultLogLevel : Level := .infoLevel

/-- The package-level logrus logger `log` of exported.go (also
`defaultlogger` of logrus_types.go): Level = defaultLogLevel. -/
def packageLog : LogrusLogger := { level := defaultLogLevel }

/-- Identity of a LoggerFunc value (Go type func(args ...interface{})).
`defaultLogFunc` is log.Error, the collaborator's Error-level record;
`custom i` stands for any caller-supplied sink.  The behaviour of a call is
not interpreted: calls are observable through the argument trace. -/
inductive LoggerFuncV where
  | defaultLogFunc
  | custom (id : Nat)
deriving DecidableEq, Repr

/-- Which of the two fixed implementations is installed as errFunc:
the methods noErr and yesErr of error_func.go. -/
inductive ErrFuncTag where
  | noErr
  | yesErr
deriving DecidableEq, Repr

/-- The errorLogger struct (unnamed/part_003):
enabled bool; wrap error; errFunc func(error) error; logFunc LoggerFunc;
*logrus.Logger.  Go nil fields are `none`. -/
structure errorLogger where
  enabled : Bool
  wrap : Option GoError
  errFunc : Option ErrFuncTag
  logFunc : Option LoggerFuncV
  logger : Option LogrusLogger
deriving DecidableEq, Repr

/-- The Go zero value &errorLogger{}: false / nil fields. -/
def zeroErrorLogger : errorLogger :=
  { enabled := false, wrap := none, errFunc := none, logFunc := none, logger := none }

/-- Disable (error_func.go): e.enabled = false; e.errFunc = e.noErr. -/
def Disable (e : errorLogger) : errorLogger :=
  { e with enabled := false, errFunc := some .noErr }

/-- Enable (error_func.go): e.enabled = true; e.errFunc = e.yesErr. -/
def Enable (e : errorLogger) : errorLogger :=
  { e with enabled := true, errFunc := some .yesErr }

/-- noErr (error_func.go): return err, unchanged; no sink interaction. -/
def noErr (err : Option GoError) : Option GoError :=
  err

/-- yesErr (error_func.go):
if err != nil { if e.wrap != nil { err = errors.Wrap(err, e.wrap.Error()) };
e.logFunc(err) }; return err.
Note the reassignment of err before the call and the return.  The result
pairs the returned value with the list of arguments passed to logFunc;
calling a nil logFunc panics. -/
def yesErr (e : errorLogger) (err : Option GoError) :
    Except GoPanic (Option GoError × List GoError) :=
  match err with
  | none => .ok (none, [])
  | some err0 =>
    let err1 : GoError :=
      match e.wrap with
      | some w => errorsWrap err0 (errorMessage w)
      | none => err0
    match e.logFunc with
    | none => .error .nilFunctionCall
    | some _ => .ok (some err1, [err1])

/-- Err (error_func.go): return e.errFunc(err).  Calling a nil errFunc
(the zero-value struct) is a Go nil-function-call panic. -/
def Err (e : errorLogger) (err : Option GoError) :
    Except GoPanic (Option GoError × List GoError) :=
  match e.errFunc with
  | none => .error .nilFunctionCall
  | some .noErr => .ok (noErr err, [])
  | some .yesErr => yesErr e err

/-- SetLoggerFunc (unnamed/part_003): e.logFunc = fn.  No nil check. -/
def SetLoggerFunc (e : errorLogger) (fn : Option LoggerFuncV) : errorLogger :=
  { e with logFunc := fn }

/-- SetErrorWrap (unnamed/part_003): e.wrap = wrap. -/
def SetErrorWrap (e : errorLogger) (wrap : Option GoError) : errorLogger :=
  { e with wrap := wrap }

/-- NewWithOptions (exported.go lines 64-77):
e := &errorLogger{}; Enable/Disable by the flag; e.Logger = log;
e.SetLoggerFunc(fn); e.SetErrorWrap(wrap). -/
def NewWithOptions (enabled : Bool) (fn : Option LoggerFuncV) (wrap : Option GoError) :
    errorLogger :=
  let e := zeroErrorLogger
  let e := if enabled then Enable e else Disable e
  let e := { e with logger := some packageLog }
  let e := SetLoggerFunc e fn
  let e := SetErrorWrap e wrap
  e

/-- defaultEnabled (unnamed/part_003): true. -/
def defaultEnabled : Bool := true

/-- defaultLogFunc (unnamed/part_003): log.Error, the collaborator's
Error-level record function. -/
def defaultLogFunc : Option LoggerFuncV := some .defaultLogFunc

/-- defaultErrWrap (unnamed/part_003): nil. -/
def defaultErrWrap : Option GoError := none

/-- New (exported.go): NewWithOptions(defaultEnabled, defaultLogFunc,
defaultErrWrap). -/
def New : errorLogger :=
  NewWithOptions defaultEnabled defaultLogFunc defaultErrWrap

/-- The package-level default instance Log = New() of exported.go. -/
def Log : errorLogger := New

/-- ParseLevel on an already-lowercased string: the switch body of
logrus.ParseLevel (logrus_types.go re-exports ParseLevel = logrus.ParseLevel).
The switch accepts "warn" and "warning" for WarnLevel; any other string
yields the error not-a-valid-logrus-Level. -/
def parseLevelLower (s : String) : Except GoError Level :=
  if s = "panic" then .ok .panicLevel
  else if s = "fatal" then .ok .fatalLevel
  else if s = "error" then .ok .errorLevel
  else if s = "warn" then .ok .warnLevel
  else if s = "warning" then .ok .warnLevel
  else if s = "info" then .ok .infoLevel
  else if s = "debug" then .ok .debugLevel
  else if s = "trace" then .ok .traceLevel
  else .error (.base ("not a valid logrus Level: \x22" ++ s ++ "\x22"))

/-- strings.ToLower: lowercase every character (the character-by-character
mapping, written over the string's character list). -/
def goToLower (s : String) : String :=
  String.mk (s.data.map Char.toLower)

/-- logrus.ParseLevel(lvl): switch strings.ToLower(lvl) { ... }. -/
def ParseLevel (lvl : String) : Except GoError Level :=
  parseLevelLower (goToLower lvl)

/-- SetLogLevel (unnamed/part_003 lines 364-371):
level, err := ParseLevel(lvl); if err != nil { return Err(err) };
e.Logger.SetLevel(level); return nil.
The failure branch calls the package-level Err (bound to Log); its return
value is the function result.  SetLevel on a nil *logrus.Logger would be a
nil-pointer dereference.  The result pairs the returned error with the
updated receiver state. -/
def SetLogLevel (e : errorLogger) (lvl : String) :
    Except GoPanic (Option GoError × errorLogger) :=
  match ParseLevel lvl with
  | .error err =>
    match Err Log (some err) with
    | .error p => .error p
    | .ok (r, _) => .ok (r, e)
  | .ok level =>
    match e.logger with
    | none => .error .nilPointerDereference
    | some l => .ok (none, { e with logger := some { l with level := level } })

/-- Apply a sequence of Enable (true) / Disable (false) toggles, oldest
first. -/
def applyToggles (e : errorLogger) : List Bool → errorLogger
  | [] => e
  | t :: ts => applyToggles (if t then Enable e else Disable e) ts

/-- Run Err repeatedly on a list of inputs against a fixed logger state,
collecting the returned values and the concatenated trace of logFunc
arguments.  (Err does not mutate the logger state.) -/
def ErrMany (e : errorLogger) : List (Option GoError) →
    Except GoPanic (List (Option GoError) × List GoError)
  | [] => .ok ([], [])
  | x :: xs =>
    match Err e x, ErrMany e xs with
    | .error p, _ => .error p
    | .ok _, .error p => .error p
    | .ok (r, t), .ok (rs, ts) => .ok (r :: rs, t ++ ts)

/-- The level names accepted by logrus.ParseLevel, lowercased: the seven
severities plus the alias "warning" for Warn. -/
def validLevelNames : List String :=
  ["panic", "fatal", "error", "warn", "warning", "info", "debug", "trace"]

/- Helper lemmas (shared). -/

theorem applyToggles_logFunc (ts : List Bool) (e : errorLogger) :
    (applyToggles e ts).logFunc = e.logFunc := by
  induction ts generalizing e with
  | nil => rfl
  | cons t ts ih =>
    cases t <;> simp [applyToggles, ih, Enable, Disable]

theorem applyToggles_wrap (ts : List Bool) (e : errorLogger) :
    (applyToggles e ts).wrap = e.wrap := by
  induction ts generalizing e with
  | nil => rfl
  | cons t ts ih =>
    cases t <;> simp [applyToggles, ih, Enable, Disable]

theorem applyToggles_errFunc (ts : List Bool) (e : errorLogger)
    (h : e.errFunc = some .noErr ∨ e.errFunc = some .yesErr) :
    (applyToggles e ts).errFunc = some .noErr ∨
      (applyToggles e ts).errFunc = some .yesErr := by
  induction ts generalizing e with
  | nil => exact h
  | cons t ts ih =>
    cases t with
    | false => exact ih (Disable e) (Or.inl rfl)
    | true => exact ih (Enable e) (Or.inr rfl)

theorem NewWithOptions_fields (enabled : Bool) (fn : Option LoggerFuncV)
    (wrap : Option GoError) :
    (NewWithOptions enabled fn wrap).errFunc
        = some (if enabled then ErrFuncTag.yesErr else ErrFuncTag.noErr) ∧
      (NewWithOptions enabled fn wrap).enabled = enabled ∧
      (NewWithOptions enabled fn wrap).logFunc = fn ∧
      (NewWithOptions enabled fn wrap).wrap = wrap ∧
      (NewWithOptions enabled fn wrap).logger = some packageLog := by
  cases enabled <;>
    simp [NewWithOptions, zeroErrorLogger, Enable, Disable, SetLoggerFunc, SetErrorWrap]

theorem parseLevelLower_mem (s : String) (h : s ∈ validLevelNames) :
    ∃ lv, parseLevelLower s = Except.ok lv := by
  unfold parseLevelLower
  split_ifs <;> first
    | exact ⟨_, rfl⟩
    | · exfalso
        simp only [validLevelNames, List.mem_cons, List.not_mem_nil, or_false] at h
        rcases h with h | h | h | h | h | h | h | h <;> simp_all

theorem parseLevelLower_not_mem (s : String) (h : s ∉ validLevelNames) :
    parseLevelLower s =
      Except.error (.base ("not a valid logrus Level: \x22" ++ s ++ "\x22")) := by
  unfold parseLevelLower
  simp only [validLevelNames, List.mem_cons, List.not_mem_nil, or_false, not_or] at h
  obtain ⟨h1, h2, h3, h4, h5, h6, h7, h8⟩ := h
  simp [h1, h2, h3, h4, h5, h6, h7, h8]

theorem Err_Log_identity (err : GoError) :
    Err Log (some err) = .ok (some err, [err]) := rfl

/- Claim theorems. -/

/-- C1: the claim says Err(e) always returns the original error e even when a
wrap template is configured, the wrapped value going only to logFunc.  The
code violates this: yesErr reassigns err to errors.Wrap(err, e.wrap.Error())
before both the logFunc call and the return statement, so on an enabled
logger with wrap template "wrapped", Err(errors.New("x")) returns the wrapped
error, not the original — contradicting Err's own doc comment ("returns the
error unchanged").  This theorem evaluates the code at that failing input. -/
theorem C1_wrap_changes_return_value :
    Err (NewWithOptions true (some (.custom 0)) (some (.base "wrapped")))
        (some (.base "x"))
      = .ok (some (errorsWrap (.base "x") "wrapped"), [errorsWrap (.base "x") "wrapped"])
    ∧ some (errorsWrap (GoError.base "x") "wrapped") ≠ some (GoError.base "x") :=
  ⟨rfl, by decide⟩

/-- C2 counterexample: the claim says no constructed instance ever has a nil
logFunc, the default being substituted for a nil argument.  But
NewWithOptions stores fn as given (SetLoggerFunc has no nil check), so
NewWithOptions(true, nil, nil) has a nil logFunc. -/
theorem C2_counterexample :
    (NewWithOptions true none none).logFunc = none := rfl

/-- C2 amended: NewWithOptions always installs a non-nil errFunc (yesErr when
enabled, noErr when disabled) and the non-nil package-default Logger, but the
fn and wrap arguments are stored exactly as passed: a nil fn leaves logFunc
nil and a nil wrap leaves wrap nil; defaults for fn/wrap are supplied only by
New(). -/
theorem C2_constructor_fields (enabled : Bool) (fn : Option LoggerFuncV)
    (wrap : Option GoError) :
    (NewWithOptions enabled fn wrap).errFunc
        = some (if enabled then ErrFuncTag.yesErr else ErrFuncTag.noErr) ∧
      (NewWithOptions enabled fn wrap).logger = some packageLog ∧
      (NewWithOptions enabled fn wrap).logFunc = fn ∧
      (NewWithOptions enabled fn wrap).wrap = wrap ∧
      New.logFunc = defaultLogFunc ∧ New.wrap = defaultErrWrap := by
  cases enabled <;>
    simp [NewWithOptions, zeroErrorLogger, Enable, Disable, SetLoggerFunc,
      SetErrorWrap, New, defaultEnabled, defaultLogFunc, defaultErrWrap]

/-- C3 counterexample: the claim says Err never panics for any constructor
arguments, including a nil log function.  But on
NewWithOptions(true, nil, nil), Err of a non-nil error reaches
e.logFunc(err) with a nil logFunc: a Go nil-function-call panic. -/
theorem C3_counterexample :
    Err (NewWithOptions true none none) (some (.base "x"))
      = .error .nilFunctionCall := rfl

/-- C3 amended: for every logger built by New or by NewWithOptions with a
non-nil log function — after any sequence of Enable/Disable toggles — Err
never panics on any input, nil or not.  (With a nil log function, Err panics
exactly when the yesErr path is installed and the input is non-nil, as the
counterexample shows.) -/
theorem C3_no_panic_with_logfunc (enabled : Bool) (f : LoggerFuncV)
    (wrap : Option GoError) (ts : List Bool) (err : Option GoError) :
    ∃ r, Err (applyToggles (NewWithOptions enabled (some f) wrap) ts) err
      = .ok r := by
  have hfn : (applyToggles (NewWithOptions enabled (some f) wrap) ts).logFunc
      = some f := by
    rw [applyToggles_logFunc]
    cases enabled <;>
      simp [NewWithOptions, zeroErrorLogger, Enable, Disable, SetLoggerFunc,
        SetErrorWrap]
  have herr := applyToggles_errFunc ts (NewWithOptions enabled (some f) wrap)
    (by cases enabled <;>
      simp [NewWithOptions, zeroErrorLogger, Enable, Disable, SetLoggerFunc,
        SetErrorWrap])
  rcases herr with h | h
  · exact ⟨(err, []), by simp [Err, h, noErr]⟩
  · cases err with
    | none => exact ⟨(none, []), by simp [Err, h, yesErr]⟩
    | some err0 =>
      cases hw : (applyToggles (NewWithOptions enabled (some f) wrap) ts).wrap with
      | none => exact ⟨(some err0, [err0]), by simp [Err, h, yesErr, hw, hfn]⟩
      | some w =>
        exact ⟨(some (errorsWrap err0 (errorMessage w)),
          [errorsWrap err0 (errorMessage w)]), by simp [Err, h, yesErr, hw, hfn]⟩

/-- C4: Err(nil) returns nil and never invokes logFunc, in either state
(whichever of the two implementations is installed), with or without a wrap
template. -/
theorem C4_err_nil (e : errorLogger) (t : ErrFuncTag) (h : e.errFunc = some t) :
    Err e none = .ok (none, []) := by
  cases t <;> simp [Err, h, noErr, yesErr]

/-- C4 witness: the theorem applied to the disabled default logger. -/
theorem C4_err_nil_witness :
    (Disable New).errFunc = some ErrFuncTag.noErr ∧
      Err (Disable New) none = .ok (none, []) :=
  ⟨rfl, C4_err_nil (Disable New) .noErr rfl⟩

/-- C5: after Disable, any number of successive Err calls return their inputs
unchanged (nil or not) and produce zero logFunc invocations — no call into
the logging collaborator at all. -/
theorem C5_disabled_identity (e : errorLogger) (errs : List (Option GoError)) :
    ErrMany (Disable e) errs = .ok (errs, []) := by
  induction errs with
  | nil => rfl
  | cons x xs ih =>
    have hx : Err (Disable e) x = Except.ok (x, []) := rfl
    simp [ErrMany, hx, ih]

/-- C6: on an enabled logger with no wrap template and a (non-nil) logFunc,
Err of a non-nil error invokes logFunc exactly once with that very error as
the argument, and returns it. -/
theorem C6_enabled_no_wrap (e : errorLogger) (f : LoggerFuncV) (err : GoError)
    (h1 : e.errFunc = some .yesErr) (h2 : e.wrap = none)
    (h3 : e.logFunc = some f) :
    Err e (some err) = .ok (some err, [err]) := by
  simp [Err, h1, yesErr, h2, h3]

/-- C6 witness: the theorem applied to the default logger New and a concrete
error. -/
theorem C6_enabled_no_wrap_witness :
    New.errFunc = some ErrFuncTag.yesErr ∧ New.wrap = none ∧
      New.logFunc = some LoggerFuncV.defaultLogFunc ∧
      Err New (some (.base "x")) = .ok (some (.base "x"), [.base "x"]) :=
  ⟨rfl, rfl, rfl,
    C6_enabled_no_wrap New .defaultLogFunc (.base "x") rfl rfl rfl⟩

/-- C7 counterexample: the claim says SetLogLevel succeeds exactly for the
seven names Panic, Fatal, Error, Warn, Info, Debug, Trace compared
case-insensitively.  But logrus.ParseLevel also accepts the alias "warning"
(mapping it to the Warn level), so SetLogLevel("warning") succeeds even
though "warning" is not a case variant of any of the seven names. -/
theorem C7_counterexample :
    SetLogLevel New "warning"
        = .ok (none, { New with logger := some { level := Level.warnLevel } })
    ∧ goToLower "warning" ∉
        (["Panic", "Fatal", "Error", "Warn", "Info", "Debug", "Trace"].map
          goToLower) :=
  ⟨rfl, by decide⟩

/-- C7 amended: SetLogLevel(name) succeeds exactly when the lowercased name
is one of panic, fatal, error, warn, warning (an alias for Warn), info,
debug, trace — so the comparison is case-insensitive and "Error", "error",
"ERROR" all set the same level; for any other input it returns a non-nil
invalid-level error and leaves the logger's state (in particular its level)
unchanged. -/
theorem C7_set_log_level (e : errorLogger) (l : LogrusLogger) (lvl : String)
    (h : e.logger = some l) :
    ((goToLower lvl) ∈ validLevelNames →
      ∃ lv, parseLevelLower (goToLower lvl) = Except.ok lv ∧
        SetLogLevel e lvl = .ok (none, { e with logger := some { l with level := lv } }))
    ∧ ((goToLower lvl) ∉ validLevelNames →
      SetLogLevel e lvl =
        .ok (some (.base ("not a valid logrus Level: \x22" ++ (goToLower lvl) ++ "\x22")), e)) := by
  constructor
  · intro hmem
    obtain ⟨lv, hlv⟩ := parseLevelLower_mem (goToLower lvl) hmem
    exact ⟨lv, hlv, by simp [SetLogLevel, ParseLevel, hlv, h]⟩
  · intro hnmem
    have hne := parseLevelLower_not_mem (goToLower lvl) hnmem
    simp [SetLogLevel, ParseLevel, hne, Err_Log_identity]

/-- C7 witness: the theorem applied to the default logger and the name
"ERROR", whose lowercase form is in the accepted set. -/
theorem C7_set_log_level_witness :
    New.logger = some packageLog ∧
      (goToLower "ERROR" ∈ validLevelNames →
        ∃ lv, parseLevelLower (goToLower "ERROR") = Except.ok lv ∧
          SetLogLevel New "ERROR"
            = .ok (none, { New with logger := some { packageLog with level := lv } })) ∧
      (goToLower "ERROR" ∉ validLevelNames →
        SetLogLevel New "ERROR" =
          .ok (some (.base ("not a valid logrus Level: \x22" ++ goToLower "ERROR" ++ "\x22")),
            New)) :=
  ⟨rfl, (C7_set_log_level New packageLog "ERROR" rfl).1,
    (C7_set_log_level New packageLog "ERROR" rfl).2⟩

/-- C8: Enable and Disable are idempotent — a second consecutive call leaves
the whole instance state (in particular the installed errFunc) exactly as the
first — and each toggle takes effect on the next Err call: right after
Disable, Err is the identity with no logFunc call; right after Enable, Err
dispatches to the active yesErr implementation. -/
theorem C8_toggle_idempotent (e : errorLogger) (err : Option GoError) :
    Enable (Enable e) = Enable e ∧ Disable (Disable e) = Disable e ∧
      Err (Disable e) err = .ok (err, []) ∧
      Err (Enable e) err = yesErr (Enable e) err :=
  ⟨rfl, rfl, rfl, rfl⟩

/-- C9: in every state reachable by construction followed by any sequence of
Enable/Disable toggles, errFunc holds exactly one of the two fixed
implementations noErr / yesErr — never nil (as in the raw zero value), and a
single function field cannot hold both. -/
theorem C9_errFunc_invariant (enabled : Bool) (fn : Option LoggerFuncV)
    (wrap : Option GoError) (ts : List Bool) :
    (applyToggles (NewWithOptions enabled fn wrap) ts).errFunc = some ErrFuncTag.noErr
    ∨ (applyToggles (NewWithOptions enabled fn wrap) ts).errFunc = some ErrFuncTag.yesErr := by
  apply applyToggles_errFunc
  cases enabled <;>
    simp [NewWithOptions, zeroErrorLogger, Enable, Disable, SetLoggerFunc, SetErrorWrap]

/-- C10: on an enabled logger with wrap template w and a logFunc, Err of a
non-nil error e passes errors.Wrap(e, w.Error()) to logFunc: a new error
whose message is w's message, the separator ": ", then e's message, and whose
cause is exactly the original error value e (so the unwrap chain reaches e
and e itself is embedded unchanged, not mutated). -/
theorem C10_wrap_to_sink (e : errorLogger) (w : GoError) (f : LoggerFuncV)
    (err : GoError) (h1 : e.errFunc = some .yesErr) (h2 : e.wrap = some w)
    (h3 : e.logFunc = some f) :
    Err e (some err)
        = .ok (some (errorsWrap err (errorMessage w)), [errorsWrap err (errorMessage w)])
    ∧ errorMessage (errorsWrap err (errorMessage w))
        = errorMessage w ++ ": " ++ errorMessage err
    ∧ goCause (errorsWrap err (errorMessage w)) = some err := by
  refine ⟨by simp [Err, h1, yesErr, h2, h3], rfl, rfl⟩

/-- C10 witness: the theorem applied to an enabled logger with wrap template
message "wrapped" and the concrete error "x". -/
theorem C10_wrap_to_sink_witness :
    (NewWithOptions true (some .defaultLogFunc) (some (.base "wrapped"))).errFunc
        = some ErrFuncTag.yesErr ∧
      (NewWithOptions true (some .defaultLogFunc) (some (.base "wrapped"))).wrap
        = some (.base "wrapped") ∧
      (NewWithOptions true (some .defaultLogFunc) (some (.base "wrapped"))).logFunc
        = some LoggerFuncV.defaultLogFunc ∧
      (Err (NewWithOptions true (some .defaultLogFunc) (some (.base "wrapped")))
          (some (.base "x"))
        = .ok (some (errorsWrap (.base "x") (errorMessage (.base "wrapped"))),
            [errorsWrap (.base "x") (errorMessage (.base "wrapped"))])
      ∧ errorMessage (errorsWrap (.base "x") (errorMessage (.base "wrapped")))
          = errorMessage (.base "wrapped") ++ ": " ++ errorMessage (.base "x")
      ∧ goCause (errorsWrap (.base "x") (errorMessage (.base "wrapped")))
          = some (.base "x")) :=
  ⟨rfl, rfl, rfl,
    C10_wrap_to_sink (NewWithOptions true (some .defaultLogFunc) (some (.base "wrapped")))
      (.base "wrapped") .defaultLogFunc (.base "x") rfl rfl rfl⟩

end Errorlogger
